import Mathlib

set_option maxRecDepth 4000

/-!
Verification development for the ldc3114 register-level driver.

The data model and every operation below are translated from the
repository sources: src/src/register.rs (register map, bit constants,
per-channel capability instances) and src/src/lib.rs (driver operations).
The I2C bus is modelled as an oracle giving the outcome of the n-th bus
transaction; the driver state records the oracle, the number of issued
transactions, a transcript of issued transactions, and the five shadow
bytes (sency0..sency3, lcdiv).
-/

namespace Ldc3114

/-- Register map, from src/src/register.rs (enum Register). -/
inductive Register where
  | Status
  | Out
  | Data0Lsb
  | Data0Msb
  | Data1Lsb
  | Data1Msb
  | Data2Lsb
  | Data2Msb
  | Data3Lsb
  | Data3Msb
  | Reset
  | En
  | NpScanRate
  | Gain0
  | LpScanRate
  | Gain1
  | IntPol
  | Gain2
  | LpBaseInc
  | Gain3
  | NpBaseInc
  | BtPauseMaxWin
  | LcDivider
  | Hyst
  | Twist
  | CommonDeform
  | OpolDpol
  | Cntsc
  | Sensor0Config
  | Sensor1Config
  | Sensor2Config
  | Ftf0
  | Sensor3Config
  | Ftf1_2
  | Ftf3
  | RawData0_3
  | RawData0_2
  | RawData0_1
  | RawData1_3
  | RawData1_2
  | RawData1_1
  | RawData2_3
  | RawData2_2
  | RawData2_1
  | RawData3_3
  | RawData3_2
  | RawData3_1
  | ManufacturerIdLsb
  | ManufacturerIdMsb
  | DeviceIdLsb
  | DeviceIdMsb
deriving DecidableEq

/-- Register addresses, from the enum discriminants in register.rs. -/
def Register.addr : Register → Nat
  | .Status => 0x00
  | .Out => 0x01
  | .Data0Lsb => 0x02
  | .Data0Msb => 0x03
  | .Data1Lsb => 0x04
  | .Data1Msb => 0x05
  | .Data2Lsb => 0x06
  | .Data2Msb => 0x07
  | .Data3Lsb => 0x08
  | .Data3Msb => 0x09
  | .Reset => 0x0A
  | .En => 0x0C
  | .NpScanRate => 0x0D
  | .Gain0 => 0x0E
  | .LpScanRate => 0x0F
  | .Gain1 => 0x10
  | .IntPol => 0x11
  | .Gain2 => 0x12
  | .LpBaseInc => 0x13
  | .Gain3 => 0x14
  | .NpBaseInc => 0x15
  | .BtPauseMaxWin => 0x16
  | .LcDivider => 0x17
  | .Hyst => 0x18
  | .Twist => 0x19
  | .CommonDeform => 0x1A
  | .OpolDpol => 0x1C
  | .Cntsc => 0x1E
  | .Sensor0Config => 0x20
  | .Sensor1Config => 0x22
  | .Sensor2Config => 0x24
  | .Ftf0 => 0x25
  | .Sensor3Config => 0x26
  | .Ftf1_2 => 0x28
  | .Ftf3 => 0x2B
  | .RawData0_3 => 0x59
  | .RawData0_2 => 0x5A
  | .RawData0_1 => 0x5B
  | .RawData1_3 => 0x5C
  | .RawData1_2 => 0x5D
  | .RawData1_1 => 0x5E
  | .RawData2_3 => 0x5F
  | .RawData2_2 => 0x60
  | .RawData2_1 => 0x61
  | .RawData3_3 => 0x62
  | .RawData3_2 => 0x63
  | .RawData3_1 => 0x64
  | .ManufacturerIdLsb => 0xFC
  | .ManufacturerIdMsb => 0xFD
  | .DeviceIdLsb => 0xFE
  | .DeviceIdMsb => 0xFF

/-- Read-only classification, from Register::is_read_only in register.rs. -/
def Register.is_read_only (r : Register) : Bool :=
  match r with
  | .Status | .Out
  | .Data0Lsb | .Data0Msb | .Data1Lsb | .Data1Msb
  | .Data2Lsb | .Data2Msb | .Data3Lsb | .Data3Msb
  | .RawData0_1 | .RawData0_2 | .RawData0_3
  | .RawData1_1 | .RawData1_2 | .RawData1_3
  | .RawData2_1 | .RawData2_2 | .RawData2_3
  | .RawData3_1 | .RawData3_2 | .RawData3_3
  | .DeviceIdLsb | .DeviceIdMsb
  | .ManufacturerIdLsb | .ManufacturerIdMsb => true
  | _ => false

-- STATUS bit constants
def OUT_STATUS : Nat := 0x80
def CHIP_READY : Nat := 0x40
def RDY_TO_WRITE : Nat := 0x20
def MAXOUT : Nat := 0x10
def FSM_WD : Nat := 0x08
def LC_WD : Nat := 0x04
def TIMEOUT : Nat := 0x02
def REGISTER_FLAG : Nat := 0x01

-- OUT bit constants
def DATA_RDY : Nat := 0x10
def OUT3 : Nat := 0x08
def OUT2 : Nat := 0x04
def OUT1 : Nat := 0x02
def OUT0 : Nat := 0x01

-- RESET codes
def FULL_RESET : Nat := 0x10
def CONFIG_MODE : Nat := 0x01

-- EN bit constants
def LPEN3 : Nat := 0x80
def LPEN2 : Nat := 0x40
def LPEN1 : Nat := 0x20
def LPEN0 : Nat := 0x10
def EN3 : Nat := 0x08
def EN2 : Nat := 0x04
def EN1 : Nat := 0x02
def EN0 : Nat := 0x01

-- INTPOL bit constants
def BTSRT_EN : Nat := 0x10
def BTN_ALG_EN : Nat := 0x08
def INTPOL : Nat := 0x04
def DIS_BTN_TO : Nat := 0x02
def DIS_BTB_MO : Nat := 0x01

-- BTPAUSE_MAXWIN bit constants
def BTPAUSE3 : Nat := 0x80
def BTPAUSE2 : Nat := 0x40
def BTPAUSE1 : Nat := 0x20
def BTPAUSE0 : Nat := 0x10
def MAXWIN3 : Nat := 0x08
def MAXWIN2 : Nat := 0x04
def MAXWIN1 : Nat := 0x02
def MAXWIN0 : Nat := 0x01

-- OPOL_DPOL bit constants
def OPOL3 : Nat := 0x80
def OPOL2 : Nat := 0x40
def OPOL1 : Nat := 0x20
def OPOL0 : Nat := 0x10
def DPOL3 : Nat := 0x08
def DPOL2 : Nat := 0x04
def DPOL1 : Nat := 0x02
def DPOL0 : Nat := 0x01

-- COMMON_DEFORM bit constants
def ANTICOM3 : Nat := 0x80
def ANTICOM2 : Nat := 0x40
def ANTICOM1 : Nat := 0x20
def ANTICOM0 : Nat := 0x10
def ANTIDFORM3 : Nat := 0x08
def ANTIDFORM2 : Nat := 0x04
def ANTIDFORM1 : Nat := 0x02
def ANTIDFORM0 : Nat := 0x01

-- CNTSC bit constants
def CNTSC3_MASK : Nat := 0xC0
def CNTSC2_MASK : Nat := 0x30
def CNTSC1_MASK : Nat := 0x0C
def CNTSC0_MASK : Nat := 0x03
def CNTSC3_OFFSET : Nat := 6
def CNTSC2_OFFSET : Nat := 4
def CNTSC1_OFFSET : Nat := 2
def CNTSC0_OFFSET : Nat := 0

-- FTF bit constants
def FTF0_MASK : Nat := 0x06
def FTF0_OFFSET : Nat := 1
def FTF2_MASK : Nat := 0xC0
def FTF1_MASK : Nat := 0x30
def FTF2_OFFSET : Nat := 6
def FTF1_OFFSET : Nat := 4
def FTF3_MASK : Nat := 0x03
def FTF3_OFFSET : Nat := 0

/-- Channel operational mode, from lib.rs (enum ChannelMode). -/
inductive ChannelMode where
  | Disabled
  | NormalMode
  | NormalAndLowPowerMode
deriving DecidableEq

/-- The four channel capability instances Channel0..Channel3
from register.rs, represented as one enumeration. -/
inductive Channel where
  | c0
  | c1
  | c2
  | c3
deriving DecidableEq

/-- CH constant per channel instance. -/
def Channel.CH : Channel → Nat
  | .c0 => 0
  | .c1 => 1
  | .c2 => 2
  | .c3 => 3

/-- EN_BIT constant per channel instance. -/
def Channel.EN_BIT : Channel → Nat
  | .c0 => EN0
  | .c1 => EN1
  | .c2 => EN2
  | .c3 => EN3

/-- LPEN_BIT constant per channel instance. -/
def Channel.LPEN_BIT : Channel → Nat
  | .c0 => LPEN0
  | .c1 => LPEN1
  | .c2 => LPEN2
  | .c3 => LPEN3

/-- BTPAUSE_BIT constant per channel instance. -/
def Channel.BTPAUSE_BIT : Channel → Nat
  | .c0 => BTPAUSE0
  | .c1 => BTPAUSE1
  | .c2 => BTPAUSE2
  | .c3 => BTPAUSE3

/-- MAXWIN_BIT constant per channel instance. -/
def Channel.MAXWIN_BIT : Channel → Nat
  | .c0 => MAXWIN0
  | .c1 => MAXWIN1
  | .c2 => MAXWIN2
  | .c3 => MAXWIN3

/-- OPOL_BIT constant per channel instance. -/
def Channel.OPOL_BIT : Channel → Nat
  | .c0 => OPOL0
  | .c1 => OPOL1
  | .c2 => OPOL2
  | .c3 => OPOL3

/-- DPOL_BIT constant per channel instance. -/
def Channel.DPOL_BIT : Channel → Nat
  | .c0 => DPOL0
  | .c1 => DPOL1
  | .c2 => DPOL2
  | .c3 => DPOL3

/-- ANTICOM_BIT constant per channel instance. -/
def Channel.ANTICOM_BIT : Channel → Nat
  | .c0 => ANTICOM0
  | .c1 => ANTICOM1
  | .c2 => ANTICOM2
  | .c3 => ANTICOM3

/-- ANTIDFORM_BIT constant per channel instance. -/
def Channel.ANTIDFORM_BIT : Channel → Nat
  | .c0 => ANTIDFORM0
  | .c1 => ANTIDFORM1
  | .c2 => ANTIDFORM2
  | .c3 => ANTIDFORM3

/-- CNTSC_MASK constant per channel instance. -/
def Channel.CNTSC_MASK : Channel → Nat
  | .c0 => CNTSC0_MASK
  | .c1 => CNTSC1_MASK
  | .c2 => CNTSC2_MASK
  | .c3 => CNTSC3_MASK

/-- CNTSC_OFFSET constant per channel instance. -/
def Channel.CNTSC_OFFSET : Channel → Nat
  | .c0 => CNTSC0_OFFSET
  | .c1 => CNTSC1_OFFSET
  | .c2 => CNTSC2_OFFSET
  | .c3 => CNTSC3_OFFSET

/-- FTF_MASK constant per channel instance. -/
def Channel.FTF_MASK : Channel → Nat
  | .c0 => FTF0_MASK
  | .c1 => FTF1_MASK
  | .c2 => FTF2_MASK
  | .c3 => FTF3_MASK

/-- FTF_OFFSET constant per channel instance. -/
def Channel.FTF_OFFSET : Channel → Nat
  | .c0 => FTF0_OFFSET
  | .c1 => FTF1_OFFSET
  | .c2 => FTF2_OFFSET
  | .c3 => FTF3_OFFSET

/-- DEFAULT_MODE constant per channel instance. -/
def Channel.DEFAULT_MODE : Channel → ChannelMode
  | .c0 => ChannelMode.NormalAndLowPowerMode
  | .c1 => ChannelMode.NormalMode
  | .c2 => ChannelMode.NormalMode
  | .c3 => ChannelMode.NormalMode

/-- DATA_LSB register per channel instance. -/
def Channel.data_lsb : Channel → Register
  | .c0 => Register.Data0Lsb
  | .c1 => Register.Data1Lsb
  | .c2 => Register.Data2Lsb
  | .c3 => Register.Data3Lsb

/-- RAW_DATA_LSB register per channel instance. -/
def Channel.raw_data_lsb : Channel → Register
  | .c0 => Register.RawData0_3
  | .c1 => Register.RawData1_3
  | .c2 => Register.RawData2_3
  | .c3 => Register.RawData3_3

/-- GAIN register per channel instance. -/
def Channel.gain : Channel → Register
  | .c0 => Register.Gain0
  | .c1 => Register.Gain1
  | .c2 => Register.Gain2
  | .c3 => Register.Gain3

/-- SENSOR_CONFIG register per channel instance. -/
def Channel.sensor_config : Channel → Register
  | .c0 => Register.Sensor0Config
  | .c1 => Register.Sensor1Config
  | .c2 => Register.Sensor2Config
  | .c3 => Register.Sensor3Config

/-- FTF register per channel instance; channels 1 and 2 share Ftf1_2. -/
def Channel.ftf : Channel → Register
  | .c0 => Register.Ftf0
  | .c1 => Register.Ftf1_2
  | .c2 => Register.Ftf1_2
  | .c3 => Register.Ftf3

/-- Scan rate in normal mode, from lib.rs (enum ScanRate). -/
inductive ScanRate where
  | Continuous
  | Highest
  | High
  | Medium
  | Low
  | Lowest
deriving DecidableEq

/-- Hardware codes of ScanRate (the repr(u8) discriminants). -/
def ScanRate.toNat : ScanRate → Nat
  | .Continuous => 0x04
  | .Highest => 0x08
  | .High => 0x00
  | .Medium => 0x01
  | .Low => 0x02
  | .Lowest => 0x03

/-- Scan rate in low power mode, from lib.rs (enum LowPowerScanRate). -/
inductive LowPowerScanRate where
  | Highest
  | High
  | Medium
  | Low
deriving DecidableEq

/-- Hardware codes of LowPowerScanRate. -/
def LowPowerScanRate.toNat : LowPowerScanRate → Nat
  | .Highest => 0x00
  | .High => 0x01
  | .Medium => 0x02
  | .Low => 0x03

/-- Interrupt polarity, from lib.rs (enum InterruptPolarity). -/
inductive InterruptPolarity where
  | ActiveLow
  | ActiveHigh
deriving DecidableEq

/-- Hardware codes of InterruptPolarity. -/
def InterruptPolarity.toNat : InterruptPolarity → Nat
  | .ActiveLow => 0
  | .ActiveHigh => 1

/-- Button output polarity, from lib.rs (enum OutputPolarity). -/
inductive OutputPolarity where
  | ActiveLow
  | ActiveHigh
deriving DecidableEq

/-- Data polarity, from lib.rs (enum DataPolarity). -/
inductive DataPolarity where
  | Inverted
  | Normal
deriving DecidableEq

/-- Counter scale, from lib.rs (enum CounterScale). -/
inductive CounterScale where
  | Zero
  | One
  | Two
  | Three
deriving DecidableEq

/-- Hardware codes of CounterScale. -/
def CounterScale.toNat : CounterScale → Nat
  | .Zero => 0
  | .One => 1
  | .Two => 2
  | .Three => 3

/-- Rp range selection, from lib.rs (enum RpRange). -/
inductive RpRange where
  | Rp50OhmTo4kOhm
  | Rp800OhmTo10kOhm
deriving DecidableEq

/-- Hardware codes of RpRange. -/
def RpRange.toNat : RpRange → Nat
  | .Rp50OhmTo4kOhm => 0x00
  | .Rp800OhmTo10kOhm => 0x80

/-- Frequency range selection, from lib.rs (enum FrequencyRange). -/
inductive FrequencyRange where
  | Freq1MHzTo3_3MHz
  | Freq3_3MHzTo10MHz
  | Freq10MHzTo30MHz
deriving DecidableEq

/-- Hardware codes of FrequencyRange. -/
def FrequencyRange.toNat : FrequencyRange → Nat
  | .Freq1MHzTo3_3MHz => 0x00
  | .Freq3_3MHzTo10MHz => 0x20
  | .Freq10MHzTo30MHz => 0x40

/-- Fast tracking factor, from lib.rs (enum FastTrackingFactor). -/
inductive FastTrackingFactor where
  | Zero
  | One
  | Two
  | Three
deriving DecidableEq

/-- Hardware codes of FastTrackingFactor. -/
def FastTrackingFactor.toNat : FastTrackingFactor → Nat
  | .Zero => 0
  | .One => 1
  | .Two => 2
  | .Three => 3

/-- Sensor configuration, from lib.rs (struct SensorConfig); cycle_count
is the u8 field modelled as Nat. -/
structure SensorConfig where
  rp_range : RpRange
  frequency_range : FrequencyRange
  cycle_count : Nat
deriving DecidableEq

/-- SensorConfig::const_default from lib.rs. -/
def SensorConfig.const_default : SensorConfig :=
  { rp_range := RpRange.Rp50OhmTo4kOhm
    frequency_range := FrequencyRange.Freq1MHzTo3_3MHz
    cycle_count := 4 }

/-- Channel configuration, from lib.rs (struct ChannelConfig). -/
structure ChannelConfig where
  mode : ChannelMode
  gain : Nat
  output_polarity : OutputPolarity
  data_polarity : DataPolarity
  counter_scale : CounterScale
  sensor_config : SensorConfig
  fast_tracking_factor : FastTrackingFactor
  enable_anticommon_algorithm : Bool
  enable_antideform_algorithm : Bool
  enable_max_win_button_algorithm : Bool
  baseline_tracking_pause : Bool
deriving DecidableEq

/-- ChannelConfig::const_default from lib.rs. -/
def ChannelConfig.const_default (ch : Channel) : ChannelConfig :=
  { mode := ch.DEFAULT_MODE
    gain := 0x28
    output_polarity := OutputPolarity.ActiveLow
    data_polarity := DataPolarity.Normal
    counter_scale := CounterScale.One
    sensor_config := SensorConfig.const_default
    fast_tracking_factor := FastTrackingFactor.One
    enable_anticommon_algorithm := false
    enable_antideform_algorithm := false
    baseline_tracking_pause := false
    enable_max_win_button_algorithm := false }

/-- Device configuration, from lib.rs (struct DeviceConfig). -/
structure DeviceConfig where
  ch0 : ChannelConfig
  ch1 : ChannelConfig
  ch2 : ChannelConfig
  ch3 : ChannelConfig
  scan_rate : ScanRate
  low_power_scan_rate : LowPowerScanRate
  enable_max_out_check : Bool
  enable_button_timeout : Bool
  interrupt_polarity : InterruptPolarity
  enable_button_press_detection_algorithm : Bool
  enable_reset_of_button_baseline_tracking : Bool
  baseline_tracking_increment_np : Nat
  baseline_tracking_increment_lp : Nat
  lc_divider : Nat
  hysteresis : Nat
  antitwist : Nat
deriving DecidableEq

/-- DeviceConfig::const_default from lib.rs. -/
def DeviceConfig.const_default : DeviceConfig :=
  { ch0 := ChannelConfig.const_default Channel.c0
    ch1 := ChannelConfig.const_default Channel.c1
    ch2 := ChannelConfig.const_default Channel.c2
    ch3 := ChannelConfig.const_default Channel.c3
    scan_rate := ScanRate.Medium
    low_power_scan_rate := LowPowerScanRate.Highest
    enable_max_out_check := true
    enable_button_timeout := true
    interrupt_polarity := InterruptPolarity.ActiveLow
    enable_button_press_detection_algorithm := true
    enable_reset_of_button_baseline_tracking := true
    baseline_tracking_increment_np := 0x03
    baseline_tracking_increment_lp := 0x05
    lc_divider := 0x03
    hysteresis := 0x08
    antitwist := 0x00 }

/-- Decoded Status register, from lib.rs (struct Status). -/
structure Status where
  output_status : Bool
  chip_ready : Bool
  ready_to_write : Bool
  maximum_output_code : Bool
  fsm_watchdog_error : Bool
  lc_sensor_watchdog_error : Bool
  button_timeout : Bool
  register_integrity_bad : Bool
deriving DecidableEq

/-- Decoded Out register, from lib.rs (struct OutputLogicStates). -/
structure OutputLogicStates where
  new_data_available : Bool
  out0 : Bool
  out1 : Bool
  out2 : Bool
  out3 : Bool
deriving DecidableEq

/-- One issued I2C bus transaction: a plain write of bytes, or a
write-then-read of a buffer of the stated length. -/
inductive BusOp where
  | write (bytes : List Nat)
  | writeRead (out : List Nat) (len : Nat)
deriving DecidableEq

/-- Driver error type, from lib.rs (enum Error). -/
inductive Error (ε : Type) where
  | I2c (e : ε)
  | WriteToReadOnly
  | InvalidParameter
deriving DecidableEq

/-- Driver state: the bus oracle (outcome of the n-th transaction, as
the environment decides), a transaction counter, a transcript of all
issued transactions, and the five shadow bytes of struct Ldc3114. -/
structure Driver (ε : Type) where
  oracle : Nat → Except ε (List Nat)
  cnt : Nat
  log : List BusOp
  sency0 : Nat
  sency1 : Nat
  sency2 : Nat
  sency3 : Nat
  lcdiv : Nat

variable {ε : Type} {α β : Type}

/-- Ldc3114::new, from lib.rs: fresh driver over a bus, shadow defaults
sency = 4 for each channel and lcdiv = 3. -/
def new (oracle : Nat → Except ε (List Nat)) : Driver ε :=
  { oracle := oracle
    cnt := 0
    log := []
    sency0 := 4
    sency1 := 4
    sency2 := 4
    sency3 := 4
    lcdiv := 3 }

/-- State-and-error passing shape of every driver operation. -/
def DrvM (ε : Type) (α : Type) : Type :=
  Driver ε → Except (Error ε) α × Driver ε

/-- Monadic unit for DrvM. -/
def DrvM.pure (a : α) : DrvM ε α := fun d => (Except.ok a, d)

/-- Monadic bind for DrvM: propagate the first error, as the question
mark operator does in the source. -/
def DrvM.bind (m : DrvM ε α) (f : α → DrvM ε β) : DrvM ε β := fun d =>
  match m d with
  | (Except.ok a, d') => f a d'
  | (Except.error e, d') => (Except.error e, d')

instance instMonadDrvM : Monad (DrvM ε) where
  pure := DrvM.pure
  bind := DrvM.bind

/-- Fail with a driver error, leaving the state untouched. -/
def throwE (e : Error ε) : DrvM ε α := fun d => (Except.error e, d)

/-- Read the driver state (used to consult the shadow bytes). -/
def getDriver : DrvM ε (Driver ε) := fun d => (Except.ok d, d)

/-- Overwrite the five shadow bytes (the assignment block of
normal_mode in lib.rs). -/
def setShadowValues (s0 s1 s2 s3 l : Nat) : DrvM ε Unit := fun d =>
  (Except.ok (),
    { d with sency0 := s0, sency1 := s1, sency2 := s2, sency3 := s3, lcdiv := l })

/-- self.i2c.write(I2C_ADDR, bytes): issues one bus write transaction;
the oracle decides whether it succeeds. -/
def i2cWrite (bytes : List Nat) : DrvM ε Unit := fun d =>
  match d.oracle d.cnt with
  | Except.ok _ =>
      (Except.ok (),
        { d with cnt := d.cnt + 1, log := d.log ++ [BusOp.write bytes] })
  | Except.error e =>
      (Except.error (Error.I2c e),
        { d with cnt := d.cnt + 1, log := d.log ++ [BusOp.write bytes] })

/-- self.i2c.write_read(I2C_ADDR, out, buffer): issues one bus
write-then-read transaction filling a buffer of the given length; on
success the buffer holds the oracle's bytes (zero-filled past their
end, each reduced to a byte). -/
def i2cWriteRead (out : List Nat) (len : Nat) : DrvM ε (List Nat) := fun d =>
  match d.oracle d.cnt with
  | Except.ok bs =>
      (Except.ok ((List.range len).map fun i => bs.getD i 0 % 256),
        { d with cnt := d.cnt + 1, log := d.log ++ [BusOp.writeRead out len] })
  | Except.error e =>
      (Except.error (Error.I2c e),
        { d with cnt := d.cnt + 1, log := d.log ++ [BusOp.writeRead out len] })

/-- Ldc3114::write_register from lib.rs: refuse a read-only register
before any bus transaction, otherwise issue the two-byte write. -/
def write_register (register : Register) (value : Nat) : DrvM ε Unit :=
  if register.is_read_only then throwE Error.WriteToReadOnly
  else i2cWrite [register.addr, value]

/-- Ldc3114::read_register from lib.rs: one write-then-read transaction
receiving one byte. -/
def read_register (register : Register) : DrvM ε Nat := do
  let buffer ← i2cWriteRead [register.addr] 1
  return buffer.getD 0 0

/-- Ldc3114::modify_register from lib.rs: read, transform, write back. -/
def modify_register (register : Register) (f : Nat → Nat) : DrvM ε Unit := do
  let value ← read_register register
  write_register register (f value)

/-- Ldc3114::set_register_bits from lib.rs. -/
def set_register_bits (register : Register) (bits : Nat) : DrvM ε Unit :=
  modify_register register (fun v => v ||| bits)

/-- Ldc3114::clear_register_bits from lib.rs; the u8 bitwise complement
of bits is XOR with 255. -/
def clear_register_bits (register : Register) (bits : Nat) : DrvM ε Unit :=
  modify_register register (fun v => v &&& (255 ^^^ bits))

/-- Ldc3114::read_device_id from lib.rs. -/
def read_device_id : DrvM ε Nat :=
  read_register Register.DeviceIdMsb

/-- Ldc3114::read_manufacturer_id from lib.rs: two-byte little-endian
read. -/
def read_manufacturer_id : DrvM ε Nat := do
  let buffer ← i2cWriteRead [Register.ManufacturerIdLsb.addr] 2
  return buffer.getD 0 0 + 256 * buffer.getD 1 0

/-- Ldc3114::read_status from lib.rs: read the Status register and
decompose it by the fixed bit masks. -/
def read_status : DrvM ε Status := do
  let sr ← read_register Register.Status
  return { output_status := sr &&& OUT_STATUS != 0
           chip_ready := sr &&& CHIP_READY != 0
           ready_to_write := sr &&& RDY_TO_WRITE != 0
           maximum_output_code := sr &&& MAXOUT != 0
           fsm_watchdog_error := sr &&& FSM_WD != 0
           lc_sensor_watchdog_error := sr &&& LC_WD != 0
           button_timeout := sr &&& TIMEOUT != 0
           register_integrity_bad := sr &&& REGISTER_FLAG != 0 }

/-- Ldc3114::is_ready_to_write from lib.rs. -/
def is_ready_to_write : DrvM ε Bool := do
  let sr ← read_register Register.Status
  return sr &&& RDY_TO_WRITE != 0

/-- Ldc3114::is_chip_ready from lib.rs. -/
def is_chip_ready : DrvM ε Bool := do
  let sr ← read_register Register.Status
  return sr &&& CHIP_READY != 0

/-- Ldc3114::full_reset from lib.rs: write the full-reset code to the
Reset register. -/
def full_reset : DrvM ε Unit :=
  write_register Register.Reset FULL_RESET

/-- Ldc3114::config_mode from lib.rs: write the configuration-mode code
to the Reset register. -/
def config_mode : DrvM ε Unit :=
  write_register Register.Reset CONFIG_MODE

/-- Ldc3114::normal_mode from lib.rs: read back the LC-divider and the
four sensor-config registers, store the masked fields as the shadow
bytes, then write zero to the Reset register. -/
def normal_mode : DrvM ε Unit := do
  let lcdiv ← read_register Register.LcDivider
  let scfg0 ← read_register Register.Sensor0Config
  let scfg1 ← read_register Register.Sensor1Config
  let scfg2 ← read_register Register.Sensor2Config
  let scfg3 ← read_register Register.Sensor3Config
  setShadowValues (scfg0 &&& 0x1F) (scfg1 &&& 0x1F) (scfg2 &&& 0x1F)
    (scfg3 &&& 0x1F) (lcdiv &&& 0x07)
  write_register Register.Reset 0

/-- Ldc3114::read_output_logic_states from lib.rs. -/
def read_output_logic_states : DrvM ε OutputLogicStates := do
  let out ← read_register Register.Out
  return { new_data_available := out &&& DATA_RDY != 0
           out0 := out &&& OUT0 != 0
           out1 := out &&& OUT1 != 0
           out2 := out &&& OUT2 != 0
           out3 := out &&& OUT3 != 0 }

/-- Ldc3114::read_button_data from lib.rs: two-byte little-endian read
interpreted as a signed 16-bit value. -/
def read_button_data (ch : Channel) : DrvM ε Int := do
  let buffer ← i2cWriteRead [ch.data_lsb.addr] 2
  let data := buffer.getD 0 0 + 256 * buffer.getD 1 0
  return if data < 32768 then (data : Int) else (data : Int) - 65536

/-- The shadow cycle count for a channel (the match on T::CH inside
read_raw_data in lib.rs). -/
def Driver.sency (d : Driver ε) : Channel → Nat
  | .c0 => d.sency0
  | .c1 => d.sency1
  | .c2 => d.sency2
  | .c3 => d.sency3

/-- Ldc3114::read_raw_data from lib.rs: three-byte little-endian read
zero-extended to 32 bits; zero is returned directly; otherwise
w = 128 * (1 + sency) * (2 shifted left by lcdiv) as u32 and
fsensor = 30 * w * 44_000_000 / data as u64, narrowed to u32. -/
def read_raw_data (ch : Channel) : DrvM ε Nat := do
  let buffer ← i2cWriteRead [ch.raw_data_lsb.addr] 3
  let data := buffer.getD 0 0 + 256 * buffer.getD 1 0 + 65536 * buffer.getD 2 0
  if data = 0 then
    return 0
  else
    let d ← getDriver
    let sency := d.sency ch
    let w := 128 * (1 + sency) * (2 <<< d.lcdiv) % 4294967296
    return 30 * w * 44000000 / data % 4294967296

/-- Ldc3114::set_channel_mode from lib.rs. -/
def set_channel_mode (ch : Channel) (mode : ChannelMode) : DrvM ε Unit :=
  match mode with
  | ChannelMode.Disabled =>
      clear_register_bits Register.En (ch.EN_BIT ||| ch.LPEN_BIT)
  | ChannelMode.NormalMode =>
      modify_register Register.En
        (fun v => (v &&& (255 ^^^ ch.LPEN_BIT)) ||| ch.EN_BIT)
  | ChannelMode.NormalAndLowPowerMode =>
      set_register_bits Register.En (ch.EN_BIT ||| ch.LPEN_BIT)

/-- Ldc3114::set_channel_gain from lib.rs. -/
def set_channel_gain (ch : Channel) (gain : Nat) : DrvM ε Unit :=
  if 0x40 ≤ gain then throwE Error.InvalidParameter
  else write_register ch.gain gain

/-- Ldc3114::set_normal_scan_rate from lib.rs. -/
def set_normal_scan_rate (sr : ScanRate) : DrvM ε Unit :=
  write_register Register.NpScanRate sr.toNat

/-- Ldc3114::set_low_power_scan_rate from lib.rs. -/
def set_low_power_scan_rate (sr : LowPowerScanRate) : DrvM ε Unit :=
  write_register Register.LpScanRate sr.toNat

/-- Ldc3114::enable_maxout_check from lib.rs (verbatim, including the
direction in which the DIS_BTB_MO bit is driven). -/
def enable_maxout_check (enable : Bool) : DrvM ε Unit :=
  if enable then set_register_bits Register.IntPol DIS_BTB_MO
  else clear_register_bits Register.IntPol DIS_BTB_MO

/-- Ldc3114::enable_button_timeout from lib.rs (verbatim, including the
direction in which the DIS_BTN_TO bit is driven). -/
def enable_button_timeout (enable : Bool) : DrvM ε Unit :=
  if enable then set_register_bits Register.IntPol DIS_BTN_TO
  else clear_register_bits Register.IntPol DIS_BTN_TO

/-- Ldc3114::set_interrupt_polarity from lib.rs. -/
def set_interrupt_polarity (polarity : InterruptPolarity) : DrvM ε Unit :=
  match polarity with
  | InterruptPolarity.ActiveLow => clear_register_bits Register.IntPol INTPOL
  | InterruptPolarity.ActiveHigh => set_register_bits Register.IntPol INTPOL

/-- Ldc3114::enable_button_press_detection_algorithm from lib.rs. -/
def enable_button_press_detection_algorithm (enable : Bool) : DrvM ε Unit :=
  if enable then set_register_bits Register.IntPol BTN_ALG_EN
  else clear_register_bits Register.IntPol BTN_ALG_EN

/-- Ldc3114::enable_reset_of_button_baseline_tracking from lib.rs. -/
def enable_reset_of_button_baseline_tracking (enable : Bool) : DrvM ε Unit :=
  if enable then set_register_bits Register.IntPol BTSRT_EN
  else clear_register_bits Register.IntPol BTSRT_EN

/-- Ldc3114::set_baseline_tracking_increment_np from lib.rs. -/
def set_baseline_tracking_increment_np (value : Nat) : DrvM ε Unit :=
  if 0x08 ≤ value then throwE Error.InvalidParameter
  else write_register Register.NpBaseInc value

/-- Ldc3114::set_baseline_tracking_increment_lp from lib.rs. -/
def set_baseline_tracking_increment_lp (value : Nat) : DrvM ε Unit :=
  if 0x08 ≤ value then throwE Error.InvalidParameter
  else write_register Register.LpBaseInc value

/-- Ldc3114::set_baseline_tracking_pause from lib.rs. -/
def set_baseline_tracking_pause (ch : Channel) (pause : Bool) : DrvM ε Unit :=
  if pause then set_register_bits Register.BtPauseMaxWin ch.BTPAUSE_BIT
  else clear_register_bits Register.BtPauseMaxWin ch.BTPAUSE_BIT

/-- Ldc3114::include_channel_in_max_win_algorithm from lib.rs. -/
def include_channel_in_max_win_algorithm (ch : Channel) (include_ : Bool) :
    DrvM ε Unit :=
  if include_ then set_register_bits Register.BtPauseMaxWin ch.MAXWIN_BIT
  else clear_register_bits Register.BtPauseMaxWin ch.MAXWIN_BIT

/-- Ldc3114::set_lc_divider from lib.rs. -/
def set_lc_divider (value : Nat) : DrvM ε Unit :=
  if 0x08 ≤ value then throwE Error.InvalidParameter
  else write_register Register.LcDivider value

/-- Ldc3114::set_hysteresis from lib.rs. -/
def set_hysteresis (value : Nat) : DrvM ε Unit :=
  if 0x10 ≤ value then throwE Error.InvalidParameter
  else write_register Register.Hyst value

/-- Ldc3114::set_antitwist from lib.rs. -/
def set_antitwist (value : Nat) : DrvM ε Unit :=
  if 0x08 ≤ value then throwE Error.InvalidParameter
  else write_register Register.Twist value

/-- Ldc3114::include_channel_in_anticommon_algorithm from lib.rs. -/
def include_channel_in_anticommon_algorithm (ch : Channel) (include_ : Bool) :
    DrvM ε Unit :=
  if include_ then set_register_bits Register.CommonDeform ch.ANTICOM_BIT
  else clear_register_bits Register.CommonDeform ch.ANTICOM_BIT

/-- Ldc3114::include_channel_in_antideform_algorithm from lib.rs. -/
def include_channel_in_antideform_algorithm (ch : Channel) (include_ : Bool) :
    DrvM ε Unit :=
  if include_ then set_register_bits Register.CommonDeform ch.ANTIDFORM_BIT
  else clear_register_bits Register.CommonDeform ch.ANTIDFORM_BIT

/-- Ldc3114::set_output_polarity from lib.rs. -/
def set_output_polarity (ch : Channel) (polarity : OutputPolarity) :
    DrvM ε Unit :=
  match polarity with
  | OutputPolarity.ActiveLow => clear_register_bits Register.OpolDpol ch.OPOL_BIT
  | OutputPolarity.ActiveHigh => set_register_bits Register.OpolDpol ch.OPOL_BIT

/-- Ldc3114::set_data_polarity from lib.rs. -/
def set_data_polarity (ch : Channel) (polarity : DataPolarity) : DrvM ε Unit :=
  match polarity with
  | DataPolarity.Inverted => clear_register_bits Register.OpolDpol ch.DPOL_BIT
  | DataPolarity.Normal => set_register_bits Register.OpolDpol ch.DPOL_BIT

/-- Ldc3114::set_counter_scale from lib.rs. -/
def set_counter_scale (ch : Channel) (scale : CounterScale) : DrvM ε Unit :=
  modify_register Register.Cntsc
    (fun v => (v &&& (255 ^^^ ch.CNTSC_MASK)) ||| (scale.toNat <<< ch.CNTSC_OFFSET))

/-- Ldc3114::set_sensor_config from lib.rs. -/
def set_sensor_config (ch : Channel) (config : SensorConfig) : DrvM ε Unit :=
  if 0x20 ≤ config.cycle_count then throwE Error.InvalidParameter
  else
    write_register ch.sensor_config
      (config.cycle_count ||| config.rp_range.toNat ||| config.frequency_range.toNat)

/-- Ldc3114::set_fast_tracking_factor from lib.rs. -/
def set_fast_tracking_factor (ch : Channel) (ftf : FastTrackingFactor) :
    DrvM ε Unit :=
  modify_register ch.ftf
    (fun v => (v &&& (255 ^^^ ch.FTF_MASK)) ||| (ftf.toNat <<< ch.FTF_OFFSET))

/-- Helper fn en_bits inside set_device_configuration in lib.rs. -/
def en_bits (ch : Channel) (mode : ChannelMode) : Nat :=
  match mode with
  | ChannelMode.Disabled => 0x00
  | ChannelMode.NormalMode => ch.EN_BIT
  | ChannelMode.NormalAndLowPowerMode => ch.EN_BIT ||| ch.LPEN_BIT

/-- Helper fn btpause_maxwin_bits inside set_device_configuration. -/
def btpause_maxwin_bits (ch : Channel) (btpause maxwin : Bool) : Nat :=
  match btpause, maxwin with
  | false, false => 0x00
  | true, false => ch.BTPAUSE_BIT
  | false, true => ch.MAXWIN_BIT
  | true, true => ch.BTPAUSE_BIT ||| ch.MAXWIN_BIT

/-- Helper fn common_deform_bits inside set_device_configuration. -/
def common_deform_bits (ch : Channel) (common deform : Bool) : Nat :=
  match common, deform with
  | false, false => 0x00
  | true, false => ch.ANTICOM_BIT
  | false, true => ch.ANTIDFORM_BIT
  | true, true => ch.ANTICOM_BIT ||| ch.ANTIDFORM_BIT

/-- Helper fn opol_dpol_bits inside set_device_configuration. -/
def opol_dpol_bits (ch : Channel) (opol : OutputPolarity) (dpol : DataPolarity) :
    Nat :=
  match opol, dpol with
  | OutputPolarity.ActiveLow, DataPolarity.Inverted => 0x00
  | OutputPolarity.ActiveHigh, DataPolarity.Inverted => ch.OPOL_BIT
  | OutputPolarity.ActiveLow, DataPolarity.Normal => ch.DPOL_BIT
  | OutputPolarity.ActiveHigh, DataPolarity.Normal => ch.OPOL_BIT ||| ch.DPOL_BIT

/-- The IntPol byte assembled by set_device_configuration in lib.rs. -/
def intpol_byte (config : DeviceConfig) : Nat :=
  ((((config.enable_reset_of_button_baseline_tracking.toNat <<< 4) |||
      (config.enable_button_press_detection_algorithm.toNat <<< 3)) |||
      (config.interrupt_polarity.toNat <<< 2)) |||
      ((!config.enable_button_timeout).toNat <<< 1)) |||
      (!config.enable_max_out_check).toNat

/-- The Cntsc byte assembled by set_device_configuration in lib.rs;
note the source ORs ch1.counter_scale in twice (once shifted by 2 and
once unshifted), instead of using ch0.counter_scale for the low field. -/
def cntsc_byte (config : DeviceConfig) : Nat :=
  (((config.ch3.counter_scale.toNat <<< 6) |||
      (config.ch2.counter_scale.toNat <<< 4)) |||
      (config.ch1.counter_scale.toNat <<< 2)) |||
      config.ch1.counter_scale.toNat

/-- Ldc3114::set_device_configuration from lib.rs, step by step in the
source's order. -/
def set_device_configuration (config : DeviceConfig) : DrvM ε Unit := do
  let en := ((en_bits Channel.c0 config.ch0.mode |||
      en_bits Channel.c1 config.ch1.mode) |||
      en_bits Channel.c2 config.ch2.mode) |||
      en_bits Channel.c3 config.ch3.mode
  write_register Register.En en
  set_channel_gain Channel.c0 config.ch0.gain
  set_channel_gain Channel.c1 config.ch1.gain
  set_channel_gain Channel.c2 config.ch2.gain
  set_channel_gain Channel.c3 config.ch3.gain
  set_normal_scan_rate config.scan_rate
  set_low_power_scan_rate config.low_power_scan_rate
  write_register Register.IntPol (intpol_byte config)
  set_baseline_tracking_increment_np config.baseline_tracking_increment_np
  set_baseline_tracking_increment_lp config.baseline_tracking_increment_lp
  let btpause_maxwin := ((btpause_maxwin_bits Channel.c0
      config.ch0.baseline_tracking_pause config.ch0.enable_max_win_button_algorithm |||
      btpause_maxwin_bits Channel.c1
      config.ch1.baseline_tracking_pause config.ch1.enable_max_win_button_algorithm) |||
      btpause_maxwin_bits Channel.c2
      config.ch2.baseline_tracking_pause config.ch2.enable_max_win_button_algorithm) |||
      btpause_maxwin_bits Channel.c3
      config.ch3.baseline_tracking_pause config.ch3.enable_max_win_button_algorithm
  write_register Register.BtPauseMaxWin btpause_maxwin
  set_lc_divider config.lc_divider
  set_hysteresis config.hysteresis
  set_antitwist config.antitwist
  let common_deform := ((common_deform_bits Channel.c0
      config.ch0.enable_anticommon_algorithm config.ch0.enable_antideform_algorithm |||
      common_deform_bits Channel.c1
      config.ch1.enable_anticommon_algorithm config.ch1.enable_antideform_algorithm) |||
      common_deform_bits Channel.c2
      config.ch2.enable_anticommon_algorithm config.ch2.enable_antideform_algorithm) |||
      common_deform_bits Channel.c3
      config.ch3.enable_anticommon_algorithm config.ch3.enable_antideform_algorithm
  write_register Register.CommonDeform common_deform
  let opol_dpol := ((opol_dpol_bits Channel.c0
      config.ch0.output_polarity config.ch0.data_polarity |||
      opol_dpol_bits Channel.c1
      config.ch1.output_polarity config.ch1.data_polarity) |||
      opol_dpol_bits Channel.c2
      config.ch2.output_polarity config.ch2.data_polarity) |||
      opol_dpol_bits Channel.c3
      config.ch3.output_polarity config.ch3.data_polarity
  write_register Register.OpolDpol opol_dpol
  write_register Register.Cntsc (cntsc_byte config)
  set_sensor_config Channel.c0 config.ch0.sensor_config
  set_sensor_config Channel.c1 config.ch1.sensor_config
  set_sensor_config Channel.c2 config.ch2.sensor_config
  set_sensor_config Channel.c3 config.ch3.sensor_config
  set_fast_tracking_factor Channel.c0 config.ch0.fast_tracking_factor
  set_fast_tracking_factor Channel.c3 config.ch3.fast_tracking_factor
  let ftf1_2 := (config.ch2.fast_tracking_factor.toNat <<< 6) |||
      (config.ch1.fast_tracking_factor.toNat <<< 4)
  write_register Register.Ftf1_2 ftf1_2

/-- Ldc3114::configure_channel from lib.rs. -/
def configure_channel (ch : Channel) (config : ChannelConfig) : DrvM ε Unit := do
  set_channel_mode ch config.mode
  set_channel_gain ch config.gain
  set_output_polarity ch config.output_polarity
  set_counter_scale ch config.counter_scale
  set_fast_tracking_factor ch config.fast_tracking_factor
  set_data_polarity ch config.data_polarity
  set_sensor_config ch config.sensor_config
  include_channel_in_max_win_algorithm ch config.enable_max_win_button_algorithm
  include_channel_in_anticommon_algorithm ch config.enable_anticommon_algorithm
  include_channel_in_antideform_algorithm ch config.enable_antideform_algorithm
  set_baseline_tracking_pause ch config.baseline_tracking_pause

/-! ## Concrete instances used by closed theorems -/

/-- A concrete driver over a bus whose every transaction succeeds and
every read returns the byte zero. -/
def d0 : Driver Unit := new (fun _ => Except.ok [0])

/-- A concrete driver whose every read returns the three bytes of the
little-endian value 1000. -/
def d3 : Driver Unit := new (fun _ => Except.ok [232, 3, 0])

/-- The default device configuration with channel 0's counter scale set
to Zero (so that it differs from channel 1's, which stays One). -/
def cfgC1 : DeviceConfig :=
  { DeviceConfig.const_default with
      ch0 := { ChannelConfig.const_default Channel.c0 with
                 counter_scale := CounterScale.Zero } }

/-- Recognize a bus write transaction addressed to the given register
address. -/
def writesTo (a : Nat) : BusOp → Bool
  | BusOp.write (x :: _) => x == a
  | _ => false

/-- The byte-to-byte transform that set_channel_mode applies to the En
register, one arm per closure in the source. -/
def en_written (ch : Channel) (mode : ChannelMode) (v : Nat) : Nat :=
  match mode with
  | ChannelMode.Disabled => v &&& (255 ^^^ (ch.EN_BIT ||| ch.LPEN_BIT))
  | ChannelMode.NormalMode => (v &&& (255 ^^^ ch.LPEN_BIT)) ||| ch.EN_BIT
  | ChannelMode.NormalAndLowPowerMode => v ||| (ch.EN_BIT ||| ch.LPEN_BIT)

/-- The five shadow bytes of a driver state. -/
def shadows (d : Driver ε) : Nat × Nat × Nat × Nat × Nat :=
  (d.sency0, d.sency1, d.sency2, d.sency3, d.lcdiv)

/-- An operation preserves the five shadow bytes on every state. -/
def Preserves (m : DrvM ε α) : Prop :=
  ∀ d, shadows (m d).2 = shadows d

/-! ## Evaluation lemmas for the monadic embedding -/

theorem DrvM.bind_apply (m : DrvM ε α) (f : α → DrvM ε β) (d : Driver ε) :
    (m >>= f) d = match m d with
      | (Except.ok a, d') => f a d'
      | (Except.error e, d') => (Except.error e, d') := rfl

theorem DrvM.pure_apply (a : α) (d : Driver ε) :
    (Pure.pure a : DrvM ε α) d = (Except.ok a, d) := rfl

theorem Driver.sency_cntlog (d : Driver ε) (c : Nat) (lg : List BusOp)
    (ch : Channel) :
    ({ d with cnt := c, log := lg } : Driver ε).sency ch = d.sency ch := by
  cases ch <;> rfl

theorem read_register_ok (d : Driver ε) (r : Register) (bs : List Nat)
    (h : d.oracle d.cnt = Except.ok bs) :
    read_register r d = (Except.ok (bs.getD 0 0 % 256),
      { d with cnt := d.cnt + 1, log := d.log ++ [BusOp.writeRead [r.addr] 1] }) := by
  simp [read_register, i2cWriteRead, DrvM.bind_apply, DrvM.pure_apply, h]

theorem write_register_ro (d : Driver ε) (r : Register) (v : Nat)
    (hro : r.is_read_only = true) :
    write_register r v d = (Except.error Error.WriteToReadOnly, d) := by
  simp [write_register, hro, throwE]

theorem write_register_log (d : Driver ε) (r : Register) (v : Nat)
    (hro : r.is_read_only = false) :
    (write_register r v d).2.log = d.log ++ [BusOp.write [r.addr, v]] := by
  cases h : d.oracle d.cnt <;> simp [write_register, hro, i2cWrite, h]

theorem modify_register_ro (d : Driver ε) (r : Register) (f : Nat → Nat)
    (bs : List Nat) (hro : r.is_read_only = true)
    (hor : d.oracle d.cnt = Except.ok bs) :
    modify_register r f d = (Except.error Error.WriteToReadOnly,
      { d with
        cnt := d.cnt + 1
        log := d.log ++ [BusOp.writeRead [r.addr] 1] }) := by
  simp [modify_register, read_register, i2cWriteRead, DrvM.bind_apply,
    DrvM.pure_apply, hor, write_register_ro _ r _ hro]

theorem modify_register_log (d : Driver ε) (r : Register) (f : Nat → Nat)
    (bs : List Nat) (hro : r.is_read_only = false)
    (hor : d.oracle d.cnt = Except.ok bs) :
    (modify_register r f d).2.log = d.log ++
      [BusOp.writeRead [r.addr] 1, BusOp.write [r.addr, f (bs.getD 0 0 % 256)]] := by
  cases h2 : d.oracle (d.cnt + 1) <;>
    simp [modify_register, read_register, write_register, i2cWrite, i2cWriteRead,
      DrvM.bind_apply, DrvM.pure_apply, hor, hro, h2]

/-! ## Bitwise facts about the En register transform -/

theorem en_byte_fact (ch ch' : Channel) (mode : ChannelMode) (h : ch' ≠ ch) :
    ∀ v < 256,
      (match mode with
        | ChannelMode.Disabled => v &&& (255 ^^^ (ch.EN_BIT ||| ch.LPEN_BIT))
        | ChannelMode.NormalMode => (v &&& (255 ^^^ ch.LPEN_BIT)) ||| ch.EN_BIT
        | ChannelMode.NormalAndLowPowerMode => v ||| (ch.EN_BIT ||| ch.LPEN_BIT)) &&&
        (ch'.EN_BIT ||| ch'.LPEN_BIT) = v &&& (ch'.EN_BIT ||| ch'.LPEN_BIT) := by
  cases ch <;> cases ch' <;> cases mode <;> first | exact absurd rfl h | decide

theorem en_byte_self (ch : Channel) : ∀ v < 256,
    (v &&& (255 ^^^ (ch.EN_BIT ||| ch.LPEN_BIT))) &&& ch.EN_BIT = 0 ∧
    (v &&& (255 ^^^ (ch.EN_BIT ||| ch.LPEN_BIT))) &&& ch.LPEN_BIT = 0 ∧
    ((v &&& (255 ^^^ ch.LPEN_BIT)) ||| ch.EN_BIT) &&& ch.EN_BIT = ch.EN_BIT ∧
    ((v &&& (255 ^^^ ch.LPEN_BIT)) ||| ch.EN_BIT) &&& ch.LPEN_BIT = 0 ∧
    (v ||| (ch.EN_BIT ||| ch.LPEN_BIT)) &&& ch.EN_BIT = ch.EN_BIT ∧
    (v ||| (ch.EN_BIT ||| ch.LPEN_BIT)) &&& ch.LPEN_BIT = ch.LPEN_BIT := by
  cases ch <;> decide

theorem preserves_pure (a : α) : Preserves (Pure.pure a : DrvM ε α) :=
  fun _ => rfl

theorem preserves_bind {m : DrvM ε α} {f : α → DrvM ε β} (hm : Preserves m)
    (hf : ∀ a, Preserves (f a)) : Preserves (m >>= f) := by
  intro d
  have hm' := hm d
  rw [DrvM.bind_apply]
  rcases h : m d with ⟨r, d'⟩
  rw [h] at hm'
  cases r with
  | error e => exact hm'
  | ok a => exact (hf a d').trans hm'

theorem preserves_throwE (e : Error ε) : Preserves (throwE (α := α) e) :=
  fun _ => rfl

theorem preserves_getDriver : Preserves (getDriver (ε := ε)) :=
  fun _ => rfl

theorem preserves_i2cWrite (bytes : List Nat) :
    Preserves (i2cWrite (ε := ε) bytes) := by
  intro d
  cases h : d.oracle d.cnt <;> simp [i2cWrite, h, shadows]

theorem preserves_i2cWriteRead (out : List Nat) (len : Nat) :
    Preserves (i2cWriteRead (ε := ε) out len) := by
  intro d
  cases h : d.oracle d.cnt <;> simp [i2cWriteRead, h, shadows]

theorem preserves_ite (c : Prop) [Decidable c] {m1 m2 : DrvM ε α}
    (h1 : Preserves m1) (h2 : Preserves m2) : Preserves (if c then m1 else m2) := by
  by_cases h : c <;> simp [h] <;> assumption

theorem preserves_write_register (r : Register) (v : Nat) :
    Preserves (write_register (ε := ε) r v) := by
  unfold write_register
  exact preserves_ite _ (preserves_throwE _) (preserves_i2cWrite _)

theorem preserves_read_register (r : Register) :
    Preserves (read_register (ε := ε) r) := by
  unfold read_register
  exact preserves_bind (preserves_i2cWriteRead _ _) fun _ => preserves_pure _

theorem preserves_modify_register (r : Register) (f : Nat → Nat) :
    Preserves (modify_register (ε := ε) r f) := by
  unfold modify_register
  exact preserves_bind (preserves_read_register _)
    fun v => preserves_write_register _ _

theorem preserves_set_register_bits (r : Register) (bits : Nat) :
    Preserves (set_register_bits (ε := ε) r bits) :=
  preserves_modify_register _ _

theorem preserves_clear_register_bits (r : Register) (bits : Nat) :
    Preserves (clear_register_bits (ε := ε) r bits) :=
  preserves_modify_register _ _

theorem preserves_read_raw_data (ch : Channel) :
    Preserves (read_raw_data (ε := ε) ch) := by
  unfold read_raw_data
  refine preserves_bind (preserves_i2cWriteRead _ _) fun buffer => ?_
  dsimp only
  exact preserves_ite _ (preserves_pure _)
    (preserves_bind preserves_getDriver fun _ => preserves_pure _)

theorem preserves_set_device_configuration (c : DeviceConfig) :
    Preserves (set_device_configuration (ε := ε) c) := by
  unfold set_device_configuration
  dsimp only
  refine preserves_bind (preserves_write_register _ _) fun _ => ?_
  refine preserves_bind (preserves_ite _ (preserves_throwE _) (preserves_write_register _ _)) fun _ => ?_
  refine preserves_bind (preserves_ite _ (preserves_throwE _) (preserves_write_register _ _)) fun _ => ?_
  refine preserves_bind (preserves_ite _ (preserves_throwE _) (preserves_write_register _ _)) fun _ => ?_
  refine preserves_bind (preserves_ite _ (preserves_throwE _) (preserves_write_register _ _)) fun _ => ?_
  refine preserves_bind (preserves_write_register _ _) fun _ => ?_
  refine preserves_bind (preserves_write_register _ _) fun _ => ?_
  refine preserves_bind (preserves_write_register _ _) fun _ => ?_
  refine preserves_bind (preserves_ite _ (preserves_throwE _) (preserves_write_register _ _)) fun _ => ?_
  refine preserves_bind (preserves_ite _ (preserves_throwE _) (preserves_write_register _ _)) fun _ => ?_
  refine preserves_bind (preserves_write_register _ _) fun _ => ?_
  refine preserves_bind (preserves_ite _ (preserves_throwE _) (preserves_write_register _ _)) fun _ => ?_
  refine preserves_bind (preserves_ite _ (preserves_throwE _) (preserves_write_register _ _)) fun _ => ?_
  refine preserves_bind (preserves_ite _ (preserves_throwE _) (preserves_write_register _ _)) fun _ => ?_
  refine preserves_bind (preserves_write_register _ _) fun _ => ?_
  refine preserves_bind (preserves_write_register _ _) fun _ => ?_
  refine preserves_bind (preserves_write_register _ _) fun _ => ?_
  refine preserves_bind (preserves_ite _ (preserves_throwE _) (preserves_write_register _ _)) fun _ => ?_
  refine preserves_bind (preserves_ite _ (preserves_throwE _) (preserves_write_register _ _)) fun _ => ?_
  refine preserves_bind (preserves_ite _ (preserves_throwE _) (preserves_write_register _ _)) fun _ => ?_
  refine preserves_bind (preserves_ite _ (preserves_throwE _) (preserves_write_register _ _)) fun _ => ?_
  refine preserves_bind (preserves_modify_register _ _) fun _ => ?_
  refine preserves_bind (preserves_modify_register _ _) fun _ => ?_
  exact preserves_write_register _ _

theorem preserves_full_reset : Preserves (full_reset (ε := ε)) :=
  preserves_write_register _ _

theorem preserves_config_mode : Preserves (config_mode (ε := ε)) :=
  preserves_write_register _ _

theorem preserves_read_device_id : Preserves (read_device_id (ε := ε)) :=
  preserves_read_register _

theorem preserves_read_manufacturer_id :
    Preserves (read_manufacturer_id (ε := ε)) := by
  unfold read_manufacturer_id
  exact preserves_bind (preserves_i2cWriteRead _ _) fun _ _ => rfl

theorem preserves_read_status : Preserves (read_status (ε := ε)) := by
  unfold read_status
  exact preserves_bind (preserves_read_register _) fun _ _ => rfl

theorem preserves_is_ready_to_write : Preserves (is_ready_to_write (ε := ε)) := by
  unfold is_ready_to_write
  exact preserves_bind (preserves_read_register _) fun _ _ => rfl

theorem preserves_is_chip_ready : Preserves (is_chip_ready (ε := ε)) := by
  unfold is_chip_ready
  exact preserves_bind (preserves_read_register _) fun _ _ => rfl

theorem preserves_read_output_logic_states :
    Preserves (read_output_logic_states (ε := ε)) := by
  unfold read_output_logic_states
  exact preserves_bind (preserves_read_register _) fun _ _ => rfl

theorem preserves_read_button_data (ch : Channel) :
    Preserves (read_button_data (ε := ε) ch) := by
  unfold read_button_data
  exact preserves_bind (preserves_i2cWriteRead _ _) fun _ _ => rfl

theorem preserves_set_channel_mode (ch : Channel) (mode : ChannelMode) :
    Preserves (set_channel_mode (ε := ε) ch mode) := by
  cases mode
  · exact preserves_clear_register_bits _ _
  · exact preserves_modify_register _ _
  · exact preserves_set_register_bits _ _

theorem preserves_set_channel_gain (ch : Channel) (g : Nat) :
    Preserves (set_channel_gain (ε := ε) ch g) :=
  preserves_ite _ (preserves_throwE _) (preserves_write_register _ _)

theorem preserves_set_normal_scan_rate (sr : ScanRate) :
    Preserves (set_normal_scan_rate (ε := ε) sr) :=
  preserves_write_register _ _

theorem preserves_set_low_power_scan_rate (sr : LowPowerScanRate) :
    Preserves (set_low_power_scan_rate (ε := ε) sr) :=
  preserves_write_register _ _

theorem preserves_enable_maxout_check (b : Bool) :
    Preserves (enable_maxout_check (ε := ε) b) := by
  cases b
  · exact preserves_clear_register_bits _ _
  · exact preserves_set_register_bits _ _

theorem preserves_enable_button_timeout (b : Bool) :
    Preserves (enable_button_timeout (ε := ε) b) := by
  cases b
  · exact preserves_clear_register_bits _ _
  · exact preserves_set_register_bits _ _

theorem preserves_set_interrupt_polarity (p : InterruptPolarity) :
    Preserves (set_interrupt_polarity (ε := ε) p) := by
  cases p
  · exact preserves_clear_register_bits _ _
  · exact preserves_set_register_bits _ _

theorem preserves_enable_button_press_detection_algorithm (b : Bool) :
    Preserves (enable_button_press_detection_algorithm (ε := ε) b) := by
  cases b
  · exact preserves_clear_register_bits _ _
  · exact preserves_set_register_bits _ _

theorem preserves_enable_reset_of_button_baseline_tracking (b : Bool) :
    Preserves (enable_reset_of_button_baseline_tracking (ε := ε) b) := by
  cases b
  · exact preserves_clear_register_bits _ _
  · exact preserves_set_register_bits _ _

theorem preserves_set_baseline_tracking_increment_np (v : Nat) :
    Preserves (set_baseline_tracking_increment_np (ε := ε) v) :=
  preserves_ite _ (preserves_throwE _) (preserves_write_register _ _)

theorem preserves_set_baseline_tracking_increment_lp (v : Nat) :
    Preserves (set_baseline_tracking_increment_lp (ε := ε) v) :=
  preserves_ite _ (preserves_throwE _) (preserves_write_register _ _)

theorem preserves_set_baseline_tracking_pause (ch : Channel) (b : Bool) :
    Preserves (set_baseline_tracking_pause (ε := ε) ch b) := by
  cases b
  · exact preserves_clear_register_bits _ _
  · exact preserves_set_register_bits _ _

theorem preserves_include_channel_in_max_win_algorithm (ch : Channel) (b : Bool) :
    Preserves (include_channel_in_max_win_algorithm (ε := ε) ch b) := by
  cases b
  · exact preserves_clear_register_bits _ _
  · exact preserves_set_register_bits _ _

theorem preserves_set_lc_divider (v : Nat) :
    Preserves (set_lc_divider (ε := ε) v) :=
  preserves_ite _ (preserves_throwE _) (preserves_write_register _ _)

theorem preserves_set_hysteresis (v : Nat) :
    Preserves (set_hysteresis (ε := ε) v) :=
  preserves_ite _ (preserves_throwE _) (preserves_write_register _ _)

theorem preserves_set_antitwist (v : Nat) :
    Preserves (set_antitwist (ε := ε) v) :=
  preserves_ite _ (preserves_throwE _) (preserves_write_register _ _)

theorem preserves_include_channel_in_anticommon_algorithm (ch : Channel)
    (b : Bool) :
    Preserves (include_channel_in_anticommon_algorithm (ε := ε) ch b) := by
  cases b
  · exact preserves_clear_register_bits _ _
  · exact preserves_set_register_bits _ _

theorem preserves_include_channel_in_antideform_algorithm (ch : Channel)
    (b : Bool) :
    Preserves (include_channel_in_antideform_algorithm (ε := ε) ch b) := by
  cases b
  · exact preserves_clear_register_bits _ _
  · exact preserves_set_register_bits _ _

theorem preserves_set_output_polarity (ch : Channel) (p : OutputPolarity) :
    Preserves (set_output_polarity (ε := ε) ch p) := by
  cases p
  · exact preserves_clear_register_bits _ _
  · exact preserves_set_register_bits _ _

theorem preserves_set_data_polarity (ch : Channel) (p : DataPolarity) :
    Preserves (set_data_polarity (ε := ε) ch p) := by
  cases p
  · exact preserves_clear_register_bits _ _
  · exact preserves_set_register_bits _ _

theorem preserves_set_counter_scale (ch : Channel) (s : CounterScale) :
    Preserves (set_counter_scale (ε := ε) ch s) :=
  preserves_modify_register _ _

theorem preserves_set_sensor_config (ch : Channel) (c : SensorConfig) :
    Preserves (set_sensor_config (ε := ε) ch c) :=
  preserves_ite _ (preserves_throwE _) (preserves_write_register _ _)

theorem preserves_set_fast_tracking_factor (ch : Channel)
    (f : FastTrackingFactor) :
    Preserves (set_fast_tracking_factor (ε := ε) ch f) :=
  preserves_modify_register _ _

theorem preserves_configure_channel (ch : Channel) (c : ChannelConfig) :
    Preserves (configure_channel (ε := ε) ch c) := by
  unfold configure_channel
  refine preserves_bind (preserves_set_channel_mode _ _) fun _ => ?_
  refine preserves_bind (preserves_set_channel_gain _ _) fun _ => ?_
  refine preserves_bind (preserves_set_output_polarity _ _) fun _ => ?_
  refine preserves_bind (preserves_set_counter_scale _ _) fun _ => ?_
  refine preserves_bind (preserves_set_fast_tracking_factor _ _) fun _ => ?_
  refine preserves_bind (preserves_set_data_polarity _ _) fun _ => ?_
  refine preserves_bind (preserves_set_sensor_config _ _) fun _ => ?_
  refine preserves_bind (preserves_include_channel_in_max_win_algorithm _ _) fun _ => ?_
  refine preserves_bind (preserves_include_channel_in_anticommon_algorithm _ _) fun _ => ?_
  refine preserves_bind (preserves_include_channel_in_antideform_algorithm _ _) fun _ => ?_
  exact preserves_set_baseline_tracking_pause _ _

/-- A concrete driver whose every read returns three zero bytes. -/
def dz : Driver Unit := new (fun _ => Except.ok [0, 0, 0])

theorem normal_mode_starts_with_readback (d : Driver ε) :
    ∃ t, (normal_mode d).2.log =
      d.log ++ BusOp.writeRead [Register.LcDivider.addr] 1 :: t := by
  unfold normal_mode
  cases h0 : d.oracle d.cnt with
  | error e =>
      exact ⟨[], by simp [read_register, i2cWriteRead, DrvM.bind_apply,
        DrvM.pure_apply, h0]⟩
  | ok bs0 =>
  cases h1 : d.oracle (d.cnt + 1) with
  | error e =>
      exact ⟨[BusOp.writeRead [Register.Sensor0Config.addr] 1],
        by simp [read_register, i2cWriteRead, DrvM.bind_apply, DrvM.pure_apply, h0, h1]⟩
  | ok bs1 =>
  cases h2 : d.oracle (d.cnt + 2) with
  | error e =>
      exact ⟨[BusOp.writeRead [Register.Sensor0Config.addr] 1,
        BusOp.writeRead [Register.Sensor1Config.addr] 1],
        by simp [read_register, i2cWriteRead, DrvM.bind_apply, DrvM.pure_apply, h0, h1, h2]⟩
  | ok bs2 =>
  cases h3 : d.oracle (d.cnt + 3) with
  | error e =>
      exact ⟨[BusOp.writeRead [Register.Sensor0Config.addr] 1,
        BusOp.writeRead [Register.Sensor1Config.addr] 1,
        BusOp.writeRead [Register.Sensor2Config.addr] 1],
        by simp [read_register, i2cWriteRead, DrvM.bind_apply, DrvM.pure_apply, h0, h1, h2, h3]⟩
  | ok bs3 =>
  cases h4 : d.oracle (d.cnt + 4) with
  | error e =>
      exact ⟨[BusOp.writeRead [Register.Sensor0Config.addr] 1,
        BusOp.writeRead [Register.Sensor1Config.addr] 1,
        BusOp.writeRead [Register.Sensor2Config.addr] 1,
        BusOp.writeRead [Register.Sensor3Config.addr] 1],
        by simp [read_register, i2cWriteRead, DrvM.bind_apply, DrvM.pure_apply, h0, h1, h2, h3, h4]⟩
  | ok bs4 =>
  cases h5 : d.oracle (d.cnt + 5) with
  | error e =>
      exact ⟨[BusOp.writeRead [Register.Sensor0Config.addr] 1,
        BusOp.writeRead [Register.Sensor1Config.addr] 1,
        BusOp.writeRead [Register.Sensor2Config.addr] 1,
        BusOp.writeRead [Register.Sensor3Config.addr] 1,
        BusOp.write [Register.Reset.addr, 0]],
        by simp [read_register, i2cWriteRead, i2cWrite, write_register, setShadowValues,
          DrvM.bind_apply, DrvM.pure_apply, Register.is_read_only, h0, h1, h2, h3, h4, h5]⟩
  | ok bs5 =>
      exact ⟨[BusOp.writeRead [Register.Sensor0Config.addr] 1,
        BusOp.writeRead [Register.Sensor1Config.addr] 1,
        BusOp.writeRead [Register.Sensor2Config.addr] 1,
        BusOp.writeRead [Register.Sensor3Config.addr] 1,
        BusOp.write [Register.Reset.addr, 0]],
        by simp [read_register, i2cWriteRead, i2cWrite, write_register, setShadowValues,
          DrvM.bind_apply, DrvM.pure_apply, Register.is_read_only, h0, h1, h2, h3, h4, h5]⟩

/-! ## Claim theorems -/

/-- C1: the claim fails on the code. In set_device_configuration the
byte written to Cntsc ORs channel 1's counter-scale value both into
bits 3:2 and, unshifted, into bits 1:0; channel 0's configured value is
never used. On the configuration whose channel 0 scale is Zero and
channel 1 scale is One, the unique Cntsc write carries the byte 85,
whose bits 1:0 equal channel 1's value One rather than channel 0's
value Zero. -/
theorem claim_C1 :
    ((set_device_configuration cfgC1 d0).2.log.filter
        (writesTo Register.Cntsc.addr) =
      [BusOp.write [Register.Cntsc.addr, cntsc_byte cfgC1]]) ∧
    cntsc_byte cfgC1 = 85 ∧
    cntsc_byte cfgC1 &&& CNTSC0_MASK = cfgC1.ch1.counter_scale.toNat ∧
    cfgC1.ch0.counter_scale.toNat = 0 ∧
    cntsc_byte cfgC1 &&& CNTSC0_MASK ≠ cfgC1.ch0.counter_scale.toNat := by
  refine ⟨by decide, by decide, by decide, by decide, by decide⟩

/-- C2: the claim fails on the code. enable_button_timeout true SETS
bit 1 (DIS_BTN_TO) of IntPol and enable_maxout_check true SETS bit 0
(DIS_BTB_MO), the opposite of storing the API enable flags inverted,
while set_device_configuration does store them inverted (with both
enables true in the default configuration, its IntPol byte has bits 1
and 0 clear) — the two paths contradict each other and the
documentation of DIS_BTN_TO, so the setters are the slip. -/
theorem claim_C2 :
    (enable_button_timeout true d0).2.log =
      [BusOp.writeRead [Register.IntPol.addr] 1,
       BusOp.write [Register.IntPol.addr, DIS_BTN_TO]] ∧
    DIS_BTN_TO &&& DIS_BTN_TO ≠ 0 ∧
    (enable_maxout_check true d0).2.log =
      [BusOp.writeRead [Register.IntPol.addr] 1,
       BusOp.write [Register.IntPol.addr, DIS_BTB_MO]] ∧
    DIS_BTB_MO &&& DIS_BTB_MO ≠ 0 ∧
    intpol_byte DeviceConfig.const_default &&& DIS_BTN_TO = 0 ∧
    intpol_byte DeviceConfig.const_default &&& DIS_BTB_MO = 0 := by
  refine ⟨by decide, by decide, by decide, by decide, by decide, by decide⟩

/-- C3: for every channel and every nonzero 3-byte raw reading, with
in-range shadow values (cycle count below 32, divider below 8, as every
reachable state has), read_raw_data returns the 32-bit truncation of
30 * (128 * (1 + sency) * (2 shifted left by lcdiv)) * 44000000 divided
by the reading, with no intermediate overflow. -/
theorem claim_C3 (d : Driver ε) (ch : Channel) (b0 b1 b2 : Nat)
    (hor : d.oracle d.cnt = Except.ok [b0, b1, b2])
    (hb0 : b0 < 256) (hb1 : b1 < 256) (hb2 : b2 < 256)
    (hs : d.sency ch < 32) (hl : d.lcdiv < 8)
    (hr : b0 + 256 * b1 + 65536 * b2 ≠ 0) :
    (read_raw_data ch d).1 =
      Except.ok (30 * (128 * (1 + d.sency ch) * (2 <<< d.lcdiv)) * 44000000 /
        (b0 + 256 * b1 + 65536 * b2) % 4294967296) := by
  have hw : 128 * (1 + d.sency ch) * (2 <<< d.lcdiv) % 4294967296 =
      128 * (1 + d.sency ch) * (2 <<< d.lcdiv) := by
    apply Nat.mod_eq_of_lt
    have h1 : 1 + d.sency ch ≤ 32 := by omega
    have h3 : 2 ^ d.lcdiv ≤ 128 := by
      calc 2 ^ d.lcdiv ≤ 2 ^ 7 := Nat.pow_le_pow_right (by omega) (by omega)
        _ = 128 := by norm_num
    have h2 : 2 <<< d.lcdiv ≤ 256 := by
      rw [Nat.shiftLeft_eq]
      omega
    have h4 : 128 * (1 + d.sency ch) ≤ 128 * 32 := Nat.mul_le_mul_left 128 h1
    have h5 : 128 * (1 + d.sency ch) * (2 <<< d.lcdiv) ≤ 128 * 32 * 256 :=
      Nat.mul_le_mul h4 h2
    omega
  simp only [read_raw_data, i2cWriteRead, getDriver, DrvM.bind_apply,
    DrvM.pure_apply, hor]
  simp [hw, Nat.mod_eq_of_lt hb0, Nat.mod_eq_of_lt hb1, Nat.mod_eq_of_lt hb2]
  split_ifs with h
  · exact absurd (by omega) hr
  · simp [getDriver, DrvM.bind_apply, DrvM.pure_apply, Driver.sency_cntlog, hw]

/-- C3 witness: reading 1000 with the construction-time shadow defaults
(sency 4, lcdiv 3) yields 30 * 10240 * 44000000 / 1000 = 13516800000
truncated to 32 bits, which is 631898112. -/
theorem claim_C3_witness :
    (read_raw_data Channel.c0 d3).1 = Except.ok (13516800000 % 4294967296) := by
  have h := claim_C3 d3 Channel.c0 232 3 0 rfl (by decide) (by decide)
    (by decide) (by decide) (by decide) (by decide)
  rw [h]
  rfl

/-- C4 counterexample: modify_register on the read-only Status register
does return WriteToReadOnly, but only after issuing one bus transaction
(the read); the count of issued transactions is 1, not 0, and the
transcript is not empty, so the claim's zero-transaction guarantee
fails for modify_register. -/
theorem claim_C4_counterexample :
    (modify_register Register.Status (fun v => v) d0).1 =
      Except.error Error.WriteToReadOnly ∧
    (modify_register Register.Status (fun v => v) d0).2.cnt = 1 ∧
    (modify_register Register.Status (fun v => v) d0).2.log ≠ [] := by
  refine ⟨rfl, rfl, by decide⟩

/-- C4 amended: write_register on a read-only register returns
WriteToReadOnly for every value with zero bus transactions and no state
change at all; modify_register, set_register_bits and
clear_register_bits on a read-only register whose preliminary read
succeeds return WriteToReadOnly having issued exactly that one read
transaction and no write. -/
theorem claim_C4 :
    (∀ (d : Driver ε) (r : Register) (v : Nat), r.is_read_only = true →
      write_register r v d = (Except.error Error.WriteToReadOnly, d)) ∧
    (∀ (d : Driver ε) (r : Register) (f : Nat → Nat) (bs : List Nat),
      r.is_read_only = true → d.oracle d.cnt = Except.ok bs →
      modify_register r f d = (Except.error Error.WriteToReadOnly,
        { d with
          cnt := d.cnt + 1
          log := d.log ++ [BusOp.writeRead [r.addr] 1] })) ∧
    (∀ (d : Driver ε) (r : Register) (bits : Nat) (bs : List Nat),
      r.is_read_only = true → d.oracle d.cnt = Except.ok bs →
      set_register_bits r bits d = (Except.error Error.WriteToReadOnly,
        { d with
          cnt := d.cnt + 1
          log := d.log ++ [BusOp.writeRead [r.addr] 1] })) ∧
    (∀ (d : Driver ε) (r : Register) (bits : Nat) (bs : List Nat),
      r.is_read_only = true → d.oracle d.cnt = Except.ok bs →
      clear_register_bits r bits d = (Except.error Error.WriteToReadOnly,
        { d with
          cnt := d.cnt + 1
          log := d.log ++ [BusOp.writeRead [r.addr] 1] })) := by
  refine ⟨fun d r v h => write_register_ro d r v h,
    fun d r f bs h hor => modify_register_ro d r f bs h hor,
    fun d r bits bs h hor => modify_register_ro d r _ bs h hor,
    fun d r bits bs h hor => modify_register_ro d r _ bs h hor⟩

/-- C4 witness: on the concrete all-zero bus, writing 7 to the
read-only Status register fails with WriteToReadOnly and leaves the
state untouched, and modify_register on Status fails having issued
exactly the one read. -/
theorem claim_C4_witness :
    Register.Status.is_read_only = true ∧
    write_register Register.Status 7 d0 =
      (Except.error Error.WriteToReadOnly, d0) ∧
    modify_register Register.Status (fun v => v + 1) d0 =
      (Except.error Error.WriteToReadOnly,
        { d0 with
          cnt := 1
          log := [BusOp.writeRead [Register.Status.addr] 1] }) :=
  ⟨rfl, claim_C4.1 d0 Register.Status 7 rfl,
    claim_C4.2.1 d0 Register.Status (fun v => v + 1) [0] rfl rfl⟩

/-- C5: every domain-restricted typed setter rejects an out-of-range
parameter with InvalidParameter and an unchanged state (zero bus
transactions), and on an in-range parameter issues exactly the write of
that byte to the corresponding register; in particular set_channel_gain
with gain below 64 writes exactly the gain byte to the channel's gain
register. -/
theorem claim_C5 :
    (∀ (d : Driver ε) (ch : Channel) (g : Nat), 64 ≤ g →
      set_channel_gain ch g d = (Except.error Error.InvalidParameter, d)) ∧
    (∀ (d : Driver ε) (ch : Channel) (g : Nat), g < 64 →
      (set_channel_gain ch g d).2.log =
        d.log ++ [BusOp.write [ch.gain.addr, g]]) ∧
    (∀ (d : Driver ε) (ch : Channel) (c : SensorConfig), 32 ≤ c.cycle_count →
      set_sensor_config ch c d = (Except.error Error.InvalidParameter, d)) ∧
    (∀ (d : Driver ε) (ch : Channel) (c : SensorConfig), c.cycle_count < 32 →
      (set_sensor_config ch c d).2.log = d.log ++
        [BusOp.write [ch.sensor_config.addr,
          c.cycle_count ||| c.rp_range.toNat ||| c.frequency_range.toNat]]) ∧
    (∀ (d : Driver ε) (v : Nat), 8 ≤ v →
      set_baseline_tracking_increment_np v d =
        (Except.error Error.InvalidParameter, d)) ∧
    (∀ (d : Driver ε) (v : Nat), v < 8 →
      (set_baseline_tracking_increment_np v d).2.log =
        d.log ++ [BusOp.write [Register.NpBaseInc.addr, v]]) ∧
    (∀ (d : Driver ε) (v : Nat), 8 ≤ v →
      set_baseline_tracking_increment_lp v d =
        (Except.error Error.InvalidParameter, d)) ∧
    (∀ (d : Driver ε) (v : Nat), v < 8 →
      (set_baseline_tracking_increment_lp v d).2.log =
        d.log ++ [BusOp.write [Register.LpBaseInc.addr, v]]) ∧
    (∀ (d : Driver ε) (v : Nat), 8 ≤ v →
      set_lc_divider v d = (Except.error Error.InvalidParameter, d)) ∧
    (∀ (d : Driver ε) (v : Nat), v < 8 →
      (set_lc_divider v d).2.log =
        d.log ++ [BusOp.write [Register.LcDivider.addr, v]]) ∧
    (∀ (d : Driver ε) (v : Nat), 16 ≤ v →
      set_hysteresis v d = (Except.error Error.InvalidParameter, d)) ∧
    (∀ (d : Driver ε) (v : Nat), v < 16 →
      (set_hysteresis v d).2.log =
        d.log ++ [BusOp.write [Register.Hyst.addr, v]]) ∧
    (∀ (d : Driver ε) (v : Nat), 8 ≤ v →
      set_antitwist v d = (Except.error Error.InvalidParameter, d)) ∧
    (∀ (d : Driver ε) (v : Nat), v < 8 →
      (set_antitwist v d).2.log =
        d.log ++ [BusOp.write [Register.Twist.addr, v]]) := by
  refine ⟨?_, ?_, ?_, ?_, ?_, ?_, ?_, ?_, ?_, ?_, ?_, ?_, ?_, ?_⟩
  · intro d ch g h
    simp [set_channel_gain, h, throwE]
  · intro d ch g h
    have hro : ch.gain.is_read_only = false := by cases ch <;> rfl
    simp [set_channel_gain, Nat.not_le.mpr h, write_register_log d ch.gain g hro]
  · intro d ch c h
    simp [set_sensor_config, h, throwE]
  · intro d ch c h
    have hro : ch.sensor_config.is_read_only = false := by cases ch <;> rfl
    simp [set_sensor_config, Nat.not_le.mpr h,
      write_register_log d ch.sensor_config _ hro]
  · intro d v h
    simp [set_baseline_tracking_increment_np, h, throwE]
  · intro d v h
    simp [set_baseline_tracking_increment_np, Nat.not_le.mpr h,
      write_register_log d Register.NpBaseInc v rfl]
  · intro d v h
    simp [set_baseline_tracking_increment_lp, h, throwE]
  · intro d v h
    simp [set_baseline_tracking_increment_lp, Nat.not_le.mpr h,
      write_register_log d Register.LpBaseInc v rfl]
  · intro d v h
    simp [set_lc_divider, h, throwE]
  · intro d v h
    simp [set_lc_divider, Nat.not_le.mpr h,
      write_register_log d Register.LcDivider v rfl]
  · intro d v h
    simp [set_hysteresis, h, throwE]
  · intro d v h
    simp [set_hysteresis, Nat.not_le.mpr h,
      write_register_log d Register.Hyst v rfl]
  · intro d v h
    simp [set_antitwist, h, throwE]
  · intro d v h
    simp [set_antitwist, Nat.not_le.mpr h,
      write_register_log d Register.Twist v rfl]

/-- C5 witness: gain 100 is rejected with an untouched state; gain 5 on
channel 0 issues exactly the write of byte 5 to Gain0; LC divider 9 is
rejected; hysteresis 15 issues exactly the write of byte 15 to Hyst. -/
theorem claim_C5_witness :
    set_channel_gain Channel.c0 100 d0 =
      (Except.error Error.InvalidParameter, d0) ∧
    (set_channel_gain Channel.c0 5 d0).2.log =
      [BusOp.write [Register.Gain0.addr, 5]] ∧
    set_lc_divider 9 d0 = (Except.error Error.InvalidParameter, d0) ∧
    (set_hysteresis 15 d0).2.log = [BusOp.write [Register.Hyst.addr, 15]] :=
  ⟨claim_C5.1 d0 Channel.c0 100 (by decide),
   claim_C5.2.1 d0 Channel.c0 5 (by decide),
   claim_C5.2.2.2.2.2.2.2.2.1 d0 9 (by decide),
   claim_C5.2.2.2.2.2.2.2.2.2.2.2.1 d0 15 (by decide)⟩

/-- C6: on every successful call, normal_mode first reads LcDivider and
the four sensor-config registers, stores the low 3 bits of the
LcDivider byte and the low 5 bits of each sensor-config byte as the
shadow values, and only then writes byte 0 to the Reset register; and
on every call whatsoever the first transaction issued is the LcDivider
read, so the readback is unconditional. -/
theorem claim_C6 :
    (∀ (d : Driver ε) (l0 l1 l2 l3 l4 l5 : List Nat),
      d.oracle d.cnt = Except.ok l0 →
      d.oracle (d.cnt + 1) = Except.ok l1 →
      d.oracle (d.cnt + 2) = Except.ok l2 →
      d.oracle (d.cnt + 3) = Except.ok l3 →
      d.oracle (d.cnt + 4) = Except.ok l4 →
      d.oracle (d.cnt + 5) = Except.ok l5 →
      normal_mode d = (Except.ok (),
        { d with
          cnt := d.cnt + 6
          log := d.log ++
            [BusOp.writeRead [Register.LcDivider.addr] 1,
             BusOp.writeRead [Register.Sensor0Config.addr] 1,
             BusOp.writeRead [Register.Sensor1Config.addr] 1,
             BusOp.writeRead [Register.Sensor2Config.addr] 1,
             BusOp.writeRead [Register.Sensor3Config.addr] 1,
             BusOp.write [Register.Reset.addr, 0]]
          sency0 := l1.getD 0 0 % 256 &&& 0x1F
          sency1 := l2.getD 0 0 % 256 &&& 0x1F
          sency2 := l3.getD 0 0 % 256 &&& 0x1F
          sency3 := l4.getD 0 0 % 256 &&& 0x1F
          lcdiv := l0.getD 0 0 % 256 &&& 0x07 })) ∧
    (∀ d : Driver ε, ∃ t, (normal_mode d).2.log =
      d.log ++ BusOp.writeRead [Register.LcDivider.addr] 1 :: t) := by
  constructor
  · intro d l0 l1 l2 l3 l4 l5 h0 h1 h2 h3 h4 h5
    simp [normal_mode, read_register, i2cWriteRead, i2cWrite, write_register,
      setShadowValues, DrvM.bind_apply, DrvM.pure_apply, h0, h1, h2, h3, h4, h5,
      Register.is_read_only]
  · exact normal_mode_starts_with_readback

/-- C6 witness: on the all-zero bus the call succeeds, the transcript
is the five reads followed by the Reset write of zero, and all five
shadows become zero. -/
theorem claim_C6_witness :
    normal_mode d0 = (Except.ok (),
      { d0 with
        cnt := 6
        log := [BusOp.writeRead [Register.LcDivider.addr] 1,
             BusOp.writeRead [Register.Sensor0Config.addr] 1,
             BusOp.writeRead [Register.Sensor1Config.addr] 1,
             BusOp.writeRead [Register.Sensor2Config.addr] 1,
             BusOp.writeRead [Register.Sensor3Config.addr] 1,
             BusOp.write [Register.Reset.addr, 0]]
        sency0 := 0
        sency1 := 0
        sency2 := 0
        sency3 := 0
        lcdiv := 0 }) :=
  claim_C6.1 d0 [0] [0] [0] [0] [0] [0] rfl rfl rfl rfl rfl rfl

/-- C7: for every channel, when the three bytes read back form the
value zero, read_raw_data returns exactly 0, with the read transaction
as its only effect and without performing the conversion arithmetic. -/
theorem claim_C7 (d : Driver ε) (ch : Channel) (b0 b1 b2 : Nat)
    (hor : d.oracle d.cnt = Except.ok [b0, b1, b2])
    (hz : b0 % 256 + 256 * (b1 % 256) + 65536 * (b2 % 256) = 0) :
    read_raw_data ch d = (Except.ok 0,
      { d with
        cnt := d.cnt + 1
        log := d.log ++ [BusOp.writeRead [ch.raw_data_lsb.addr] 3] }) := by
  simp only [read_raw_data, i2cWriteRead, getDriver, DrvM.bind_apply,
    DrvM.pure_apply, hor]
  simp
  split_ifs with h
  · simp [DrvM.pure_apply]
  · exact absurd (by omega) h

/-- C7 witness: a raw reading of three zero bytes on channel 2 returns
exactly 0 after the single read transaction. -/
theorem claim_C7_witness :
    read_raw_data Channel.c2 dz = (Except.ok 0,
      { dz with
        cnt := 1
        log := [BusOp.writeRead [Register.RawData2_3.addr] 3] }) :=
  claim_C7 dz Channel.c2 0 0 0 rfl rfl

/-- C8: set_channel_mode reads the En register (prior value v) and
writes back a byte that, for Disabled, has the channel's EN and LPEN
bits cleared; for NormalMode, the EN bit set and the LPEN bit cleared;
for NormalAndLowPowerMode, both set — and in all three cases agrees
with v on every other channel's EN and LPEN bits. -/
theorem claim_C8 (d : Driver ε) (ch : Channel) (mode : ChannelMode)
    (bs : List Nat) (hor : d.oracle d.cnt = Except.ok bs) :
    (set_channel_mode ch mode d).2.log = d.log ++
      [BusOp.writeRead [Register.En.addr] 1,
       BusOp.write [Register.En.addr, en_written ch mode (bs.getD 0 0 % 256)]] ∧
    (match mode with
      | ChannelMode.Disabled =>
          en_written ch mode (bs.getD 0 0 % 256) &&& ch.EN_BIT = 0 ∧
          en_written ch mode (bs.getD 0 0 % 256) &&& ch.LPEN_BIT = 0
      | ChannelMode.NormalMode =>
          en_written ch mode (bs.getD 0 0 % 256) &&& ch.EN_BIT = ch.EN_BIT ∧
          en_written ch mode (bs.getD 0 0 % 256) &&& ch.LPEN_BIT = 0
      | ChannelMode.NormalAndLowPowerMode =>
          en_written ch mode (bs.getD 0 0 % 256) &&& ch.EN_BIT = ch.EN_BIT ∧
          en_written ch mode (bs.getD 0 0 % 256) &&& ch.LPEN_BIT = ch.LPEN_BIT) ∧
    (∀ ch', ch' ≠ ch →
      en_written ch mode (bs.getD 0 0 % 256) &&& (ch'.EN_BIT ||| ch'.LPEN_BIT) =
        (bs.getD 0 0 % 256) &&& (ch'.EN_BIT ||| ch'.LPEN_BIT)) := by
  have hv : bs.getD 0 0 % 256 < 256 := Nat.mod_lt _ (by norm_num)
  refine ⟨?_, ?_, ?_⟩
  · cases mode <;>
      simp only [set_channel_mode, clear_register_bits, set_register_bits] <;>
      exact modify_register_log d Register.En _ bs rfl hor
  · have h := en_byte_self ch (bs.getD 0 0 % 256) hv
    cases mode
    · exact ⟨h.1, h.2.1⟩
    · exact ⟨h.2.2.1, h.2.2.2.1⟩
    · exact ⟨h.2.2.2.2.1, h.2.2.2.2.2⟩
  · intro ch' hne
    have h := en_byte_fact ch ch' mode hne (bs.getD 0 0 % 256) hv
    cases mode <;> exact h

/-- C8 witness: on the all-zero bus, switching channel 0 to NormalMode
reads En and writes back the byte with EN0 set and LPEN0 clear, leaving
channel 1's bits as they were. -/
theorem claim_C8_witness :
    (set_channel_mode Channel.c0 ChannelMode.NormalMode d0).2.log =
      [BusOp.writeRead [Register.En.addr] 1,
       BusOp.write [Register.En.addr,
         en_written Channel.c0 ChannelMode.NormalMode 0]] ∧
    en_written Channel.c0 ChannelMode.NormalMode 0 &&& Channel.c0.EN_BIT =
      Channel.c0.EN_BIT ∧
    en_written Channel.c0 ChannelMode.NormalMode 0 &&& Channel.c0.LPEN_BIT = 0 ∧
    en_written Channel.c0 ChannelMode.NormalMode 0 &&&
        (Channel.c1.EN_BIT ||| Channel.c1.LPEN_BIT) =
      0 &&& (Channel.c1.EN_BIT ||| Channel.c1.LPEN_BIT) := by
  have h := claim_C8 d0 Channel.c0 ChannelMode.NormalMode [0] rfl
  exact ⟨h.1, h.2.1.1, h.2.1.2, h.2.2 Channel.c1 (by decide)⟩

/-- C9: for every pair of distinct channels, the bit masks the two
channel instances claim within each shared register (En,
BtPauseMaxWin, OpolDpol, CommonDeform, Cntsc) are disjoint. -/
theorem claim_C9 (ch ch' : Channel) (h : ch ≠ ch') :
    (ch.EN_BIT ||| ch.LPEN_BIT) &&& (ch'.EN_BIT ||| ch'.LPEN_BIT) = 0 ∧
    (ch.BTPAUSE_BIT ||| ch.MAXWIN_BIT) &&&
      (ch'.BTPAUSE_BIT ||| ch'.MAXWIN_BIT) = 0 ∧
    (ch.OPOL_BIT ||| ch.DPOL_BIT) &&& (ch'.OPOL_BIT ||| ch'.DPOL_BIT) = 0 ∧
    (ch.ANTICOM_BIT ||| ch.ANTIDFORM_BIT) &&&
      (ch'.ANTICOM_BIT ||| ch'.ANTIDFORM_BIT) = 0 ∧
    ch.CNTSC_MASK &&& ch'.CNTSC_MASK = 0 := by
  revert h
  cases ch <;> cases ch' <;> decide

/-- C9 witness: channel 0's and channel 1's claimed masks are disjoint
in all five shared registers. -/
theorem claim_C9_witness :
    (Channel.c0.EN_BIT ||| Channel.c0.LPEN_BIT) &&&
      (Channel.c1.EN_BIT ||| Channel.c1.LPEN_BIT) = 0 ∧
    (Channel.c0.BTPAUSE_BIT ||| Channel.c0.MAXWIN_BIT) &&&
      (Channel.c1.BTPAUSE_BIT ||| Channel.c1.MAXWIN_BIT) = 0 ∧
    (Channel.c0.OPOL_BIT ||| Channel.c0.DPOL_BIT) &&&
      (Channel.c1.OPOL_BIT ||| Channel.c1.DPOL_BIT) = 0 ∧
    (Channel.c0.ANTICOM_BIT ||| Channel.c0.ANTIDFORM_BIT) &&&
      (Channel.c1.ANTICOM_BIT ||| Channel.c1.ANTIDFORM_BIT) = 0 ∧
    Channel.c0.CNTSC_MASK &&& Channel.c1.CNTSC_MASK = 0 :=
  claim_C9 Channel.c0 Channel.c1 (by decide)

/-- C10: a fresh driver's shadows are (4, 4, 4, 4, 3), and every driver
operation except normal_mode — full_reset, config_mode,
set_device_configuration, set_sensor_config, set_lc_divider, every
read, the raw register primitives and every remaining typed setter —
preserves the five shadow bytes on every state. -/
theorem claim_C10 :
    (∀ f : Nat → Except ε (List Nat), shadows (new f) = (4, 4, 4, 4, 3)) ∧
    Preserves (full_reset (ε := ε)) ∧
    Preserves (config_mode (ε := ε)) ∧
    (∀ c, Preserves (set_device_configuration (ε := ε) c)) ∧
    (∀ ch c, Preserves (set_sensor_config (ε := ε) ch c)) ∧
    (∀ v, Preserves (set_lc_divider (ε := ε) v)) ∧
    (∀ r, Preserves (read_register (ε := ε) r)) ∧
    Preserves (read_status (ε := ε)) ∧
    Preserves (read_output_logic_states (ε := ε)) ∧
    (∀ ch, Preserves (read_button_data (ε := ε) ch)) ∧
    (∀ ch, Preserves (read_raw_data (ε := ε) ch)) ∧
    Preserves (read_device_id (ε := ε)) ∧
    Preserves (read_manufacturer_id (ε := ε)) ∧
    Preserves (is_ready_to_write (ε := ε)) ∧
    Preserves (is_chip_ready (ε := ε)) ∧
    (∀ r v, Preserves (write_register (ε := ε) r v)) ∧
    (∀ r f, Preserves (modify_register (ε := ε) r f)) ∧
    (∀ r b, Preserves (set_register_bits (ε := ε) r b)) ∧
    (∀ r b, Preserves (clear_register_bits (ε := ε) r b)) ∧
    (∀ ch m, Preserves (set_channel_mode (ε := ε) ch m)) ∧
    (∀ ch g, Preserves (set_channel_gain (ε := ε) ch g)) ∧
    (∀ sr, Preserves (set_normal_scan_rate (ε := ε) sr)) ∧
    (∀ sr, Preserves (set_low_power_scan_rate (ε := ε) sr)) ∧
    (∀ b, Preserves (enable_maxout_check (ε := ε) b)) ∧
    (∀ b, Preserves (enable_button_timeout (ε := ε) b)) ∧
    (∀ p, Preserves (set_interrupt_polarity (ε := ε) p)) ∧
    (∀ b, Preserves (enable_button_press_detection_algorithm (ε := ε) b)) ∧
    (∀ b, Preserves (enable_reset_of_button_baseline_tracking (ε := ε) b)) ∧
    (∀ v, Preserves (set_baseline_tracking_increment_np (ε := ε) v)) ∧
    (∀ v, Preserves (set_baseline_tracking_increment_lp (ε := ε) v)) ∧
    (∀ ch b, Preserves (set_baseline_tracking_pause (ε := ε) ch b)) ∧
    (∀ ch b, Preserves (include_channel_in_max_win_algorithm (ε := ε) ch b)) ∧
    (∀ v, Preserves (set_hysteresis (ε := ε) v)) ∧
    (∀ v, Preserves (set_antitwist (ε := ε) v)) ∧
    (∀ ch b, Preserves (include_channel_in_anticommon_algorithm (ε := ε) ch b)) ∧
    (∀ ch b, Preserves (include_channel_in_antideform_algorithm (ε := ε) ch b)) ∧
    (∀ ch p, Preserves (set_output_polarity (ε := ε) ch p)) ∧
    (∀ ch p, Preserves (set_data_polarity (ε := ε) ch p)) ∧
    (∀ ch s, Preserves (set_counter_scale (ε := ε) ch s)) ∧
    (∀ ch f, Preserves (set_fast_tracking_factor (ε := ε) ch f)) ∧
    (∀ ch c, Preserves (configure_channel (ε := ε) ch c)) :=
  ⟨fun _ => rfl,
   preserves_full_reset,
   preserves_config_mode,
   preserves_set_device_configuration,
   preserves_set_sensor_config,
   preserves_set_lc_divider,
   preserves_read_register,
   preserves_read_status,
   preserves_read_output_logic_states,
   preserves_read_button_data,
   preserves_read_raw_data,
   preserves_read_device_id,
   preserves_read_manufacturer_id,
   preserves_is_ready_to_write,
   preserves_is_chip_ready,
   preserves_write_register,
   preserves_modify_register,
   preserves_set_register_bits,
   preserves_clear_register_bits,
   preserves_set_channel_mode,
   preserves_set_channel_gain,
   preserves_set_normal_scan_rate,
   preserves_set_low_power_scan_rate,
   preserves_enable_maxout_check,
   preserves_enable_button_timeout,
   preserves_set_interrupt_polarity,
   preserves_enable_button_press_detection_algorithm,
   preserves_enable_reset_of_button_baseline_tracking,
   preserves_set_baseline_tracking_increment_np,
   preserves_set_baseline_tracking_increment_lp,
   preserves_set_baseline_tracking_pause,
   preserves_include_channel_in_max_win_algorithm,
   preserves_set_hysteresis,
   preserves_set_antitwist,
   preserves_include_channel_in_anticommon_algorithm,
   preserves_include_channel_in_antideform_algorithm,
   preserves_set_output_polarity,
   preserves_set_data_polarity,
   preserves_set_counter_scale,
   preserves_set_fast_tracking_factor,
   preserves_configure_channel⟩

end Ldc3114
